import Mathlib

/-!
Shallow embedding of the `jumpy` game-session core covered by the spec:
the dead-state transition and handler systems from
`src/core/src/player/state/states/dead.rs`, and the session-driver systems
(`update_input`, `update_game`, `play_sounds`) from `src/src/session.rs`.

Machine floats from the source are embedded as exact rationals; the claims
settled here only evaluate float expressions at inputs where `f32`
arithmetic is exact, so the rational embedding agrees with the source
bit-for-bit at every input a theorem or counterexample touches.
-/

namespace Jumpy

/-- Interned string key (the `Key` type produced by the `key!` macro in the
source); compared by value. -/
abbrev Key := String

/-- Entity identifier: an opaque join key across component tables. -/
abbrev Entity := Nat

/-- `key!("core::dead")` — the dead state's id (dead.rs line 3). -/
def deadID : Key := "core::dead"

/-- `key!("death_spine")` animation key (dead.rs line 43). -/
def deathSpineKey : Key := "death_spine"

/-- `key!("death_belly")` animation key (dead.rs line 45). -/
def deathBellyKey : Key := "death_belly"

/-- 2-dimensional vector (exact-rational embedding of `Vec2`). -/
structure Vec2 where
  x : ℚ
  y : ℚ
deriving DecidableEq

/-- 3-dimensional vector (exact-rational embedding of `Vec3`). -/
structure Vec3 where
  x : ℚ
  y : ℚ
  z : ℚ
deriving DecidableEq

/-- `PlayerState` component: current state id plus age-in-ticks counter. -/
structure PlayerState where
  current : Key
  age : Nat
deriving DecidableEq

/-- `PlayerKilled` marker component, carrying the optional hit origin. -/
structure PlayerKilled where
  hit_from : Option Vec2
deriving DecidableEq

/-- `AtlasSprite` component (only the `flip_x` field is read here). -/
structure AtlasSprite where
  flip_x : Bool
deriving DecidableEq

/-- `Transform` component (only `translation.x` is read here). -/
structure Transform where
  translation : Vec3
deriving DecidableEq

/-- `AnimationBankSprite` component: the currently playing animation key. -/
structure AnimationBankSprite where
  current : Key
deriving DecidableEq

/-- The bones world slice touched by the embedded systems: component tables
as partial maps from entities, the entity list driving `iter_with`, and the
deferred despawn queue held by the `PlayerEvents` resource. -/
structure World where
  entities : List Entity
  player_states : Entity → Option PlayerState
  killed_players : Entity → Option PlayerKilled
  sprites : Entity → Option AtlasSprite
  transforms : Entity → Option Transform
  animations : Entity → Option AnimationBankSprite
  despawn_queue : List Entity

/-- Embedding of `player_state_transition` (dead.rs lines 5-13): for every
entity carrying both `PlayerState` and `PlayerKilled`, set
`state.current = ID`; nothing else is touched. -/
def player_state_transition (w : World) : World :=
  { w with
    player_states := fun e =>
      match w.player_states e, w.killed_players e with
      | some st, some _ => some { st with current := deadID }
      | st, _ => st }

/-- The death-animation selection of `handle_player_state`
(dead.rs lines 33-46): `player_on_right = !sprite.flip_x`;
`is_hit_right = transform.translation.x < hit_from.x`; `death_spine` when
`(player_on_right && is_hit_right) || (!player_on_right && !is_hit_right)`,
otherwise `death_belly`; `death_belly` when no hit origin is recorded. -/
def choose_death_animation (flip_x : Bool) (translation_x : ℚ)
    (hit_from : Option Vec2) : Key :=
  let player_on_right := !flip_x
  match hit_from with
  | some hf =>
    let is_hit_right := decide (translation_x < hf.x)
    if (player_on_right && is_hit_right) || (!player_on_right && !is_hit_right) then
      deathSpineKey
    else
      deathBellyKey
  | none => deathBellyKey

/-- Loop body of `handle_player_state` (dead.rs lines 24-52) for one matched
entity (one carrying `PlayerState`, `AnimationBankSprite` and
`PlayerKilled`). Returns the updated animation component and whether a
despawn was requested, or `none` when one of the source's `unwrap` calls on
the `AtlasSprite` / `Transform` lookups would panic. -/
def handle_player_state_entity (state : PlayerState) (killed : PlayerKilled)
    (sprite : Option AtlasSprite) (transform : Option Transform)
    (animation : AnimationBankSprite) : Option (AnimationBankSprite × Bool) :=
  if state.current ≠ deadID then
    some (animation, false)
  else
    let animation' : Option AnimationBankSprite :=
      if state.age = 0 then
        match sprite, transform with
        | some s, some t =>
          some { current := choose_death_animation s.flip_x t.translation.x killed.hit_from }
        | _, _ => none
      else
        some animation
    match animation' with
    | none => none
    | some a => some (a, decide (state.age ≥ 80))

/-- One `iter_with` step of `handle_player_state` at a given entity: skips
entities not carrying all of `PlayerState`, `AnimationBankSprite`,
`PlayerKilled`; otherwise runs the loop body, writing back the animation and
appending to the despawn queue when requested. -/
def handler_step (w : World) (e : Entity) : Option World :=
  match w.player_states e, w.animations e, w.killed_players e with
  | some st, some anim, some killed =>
    match handle_player_state_entity st killed (w.sprites e) (w.transforms e) anim with
    | none => none
    | some (a, d) =>
      some { w with
             animations := Function.update w.animations e (some a),
             despawn_queue := if d then w.despawn_queue ++ [e] else w.despawn_queue }
  | _, _, _ => some w

/-- Embedding of `handle_player_state` (dead.rs lines 15-53): the `iter_with`
loop over all entities; `none` when any iteration panics on an `unwrap`. -/
def handle_player_state (w : World) : Option World :=
  List.foldlM handler_step w w.entities

/-! ## Input edge detection (`update_input`, session.rs lines 100-137) -/

/-- Per-player control record inside the `PlayerInputs` resource: the fields
written by `update_input`. `move_direction` is the exact-rational embedding
of the `Vec2` axis pair. -/
structure PlayerControl where
  jump_pressed : Bool
  jump_just_pressed : Bool
  grab_pressed : Bool
  grab_just_pressed : Bool
  shoot_pressed : Bool
  shoot_just_pressed : Bool
  move_direction : ℚ × ℚ
  just_moved : Bool
deriving DecidableEq

/-- The slice of an `ActionState<PlayerAction>` read by `update_input`:
whether each discrete action is pressed this tick and the `Move` axis pair. -/
structure ActionState where
  jump : Bool
  grab : Bool
  shoot : Bool
  move_axis : ℚ × ℚ
deriving DecidableEq

/-- `f32::MIN_POSITIVE` (the smallest positive normal `f32`, `2^-126`),
the movement threshold used in session.rs lines 131-133. -/
def f32_min_positive : ℚ := 1 / 2 ^ 126

/-- `Vec2::length_squared` in exact rational arithmetic. -/
def length_squared (v : ℚ × ℚ) : ℚ := v.1 * v.1 + v.2 * v.2

/-- Body of the `update_input` per-player loop (session.rs lines 116-135):
rising-edge detection for jump/grab/shoot and the `just_moved` edge on the
move axis. -/
def update_control (control : PlayerControl) (action_state : ActionState) :
    PlayerControl :=
  let jump_pressed := action_state.jump
  let jump_just_pressed := jump_pressed && !control.jump_pressed
  let grab_pressed := action_state.grab
  let grab_just_pressed := grab_pressed && !control.grab_pressed
  let shoot_pressed := action_state.shoot
  let shoot_just_pressed := shoot_pressed && !control.shoot_pressed
  let was_moving := decide (length_squared control.move_direction > f32_min_positive)
  let move_direction := action_state.move_axis
  let is_moving := decide (length_squared move_direction > f32_min_positive)
  { jump_pressed := jump_pressed
    jump_just_pressed := jump_just_pressed
    grab_pressed := grab_pressed
    grab_just_pressed := grab_just_pressed
    shoot_pressed := shoot_pressed
    shoot_just_pressed := shoot_just_pressed
    move_direction := move_direction
    just_moved := !was_moving && is_moving }

/-! ## Audio event queue (`play_sounds`, session.rs lines 151-178) -/

/-- `bones::AudioEvent::PlaySound`: an audio-asset handle plus a volume. -/
structure AudioEvent where
  sound_source : Nat
  volume : ℚ
deriving DecidableEq

/-- `queue.push(event)`: append one event at the back of the audio queue. -/
def push_event (q : List AudioEvent) (e : AudioEvent) : List AudioEvent :=
  q ++ [e]

/-- `queue.drain(..).collect()` as run by `play_sounds` (session.rs lines
158-163): yields every queued event in order and leaves the queue empty.
Returns (drained events, remaining queue). -/
def drain (q : List AudioEvent) : List AudioEvent × List AudioEvent :=
  (q, [])

/-! ## The spec-modelled parts of the tick pipeline

`GameSession::advance` and the stepper's age maintenance live in
`jumpy_core`'s session module, which is not among the given source files;
only their callers (`update_game`) and one state module are. They are
modelled from the spec below. -/

/-- Modelled from the spec: the stepper's age-maintenance convention for
`PlayerState` (spec section 3: "`age` is 0 on the tick the state became
current and increments by exactly 1 every subsequent tick in which the
entity remains in that state"). Given the entity's state id at the start of
the tick, reset `age` to 0 when `current` changed this tick, else increment
it. The missing code is the stepper-side age update in `jumpy_core`. -/
def age_maintenance (prev_current : Key) (st : PlayerState) : PlayerState :=
  if st.current = prev_current then
    { st with age := st.age + 1 }
  else
    { st with age := 0 }

/-- The age-maintenance pass over the whole world, comparing each entity's
state id against its snapshot from the start of the tick. -/
def age_maintenance_world (prev : Entity → Option PlayerState) (w : World) :
    World :=
  { w with
    player_states := fun e =>
      match w.player_states e, prev e with
      | some st, some stPrev => some (age_maintenance stPrev.current st)
      | st, _ => st }

/-- Modelled from the spec: the end-of-tick despawn flush (spec section 4.3
step 4: "flush deferred despawns (remove entities and all their
components)"). The stepper-side flush lives in `jumpy_core`, not in the
given sources. -/
def flush_despawns (w : World) : World :=
  { entities := w.entities.filter (fun e => ¬ e ∈ w.despawn_queue)
    player_states := fun e => if e ∈ w.despawn_queue then none else w.player_states e
    killed_players := fun e => if e ∈ w.despawn_queue then none else w.killed_players e
    sprites := fun e => if e ∈ w.despawn_queue then none else w.sprites e
    transforms := fun e => if e ∈ w.despawn_queue then none else w.transforms e
    animations := fun e => if e ∈ w.despawn_queue then none else w.animations e
    despawn_queue := [] }

/-- A whole game session: the world plus the per-player control records in
the `PlayerInputs` resource. -/
structure Session where
  world : World
  controls : List PlayerControl

/-- Applying one tick's buffered input: run `update_control` for each
player against that player's collected action state (spec section 4.3
step 1 plus the `update_input` loop of session.rs). -/
def apply_input (s : Session) (inp : List ActionState) : Session :=
  { s with controls := (s.controls.zip inp).map fun p => update_control p.1 p.2 }

/-- Modelled from the spec: `GameSession::advance`, called by `update_game`
(session.rs lines 140-149) but defined in `jumpy_core` outside the given
sources. Per spec section 4.3 it runs, in this fixed order: (1) apply
buffered input, (2) transition systems, (3) handler systems, (4) flush
deferred despawns. The age maintenance runs with the transitions so that
handlers observe `age = 0` on the entering tick. Returns `none` on a fatal
tick failure (a handler `unwrap` panic). -/
def advance (s : Session) (inp : List ActionState) : Option Session :=
  let s1 := apply_input s inp
  let prev := s1.world.player_states
  let w2 := player_state_transition s1.world
  let w3 := age_maintenance_world prev w2
  match handle_player_state w3 with
  | none => none
  | some w4 => some { s1 with world := flush_despawns w4 }

/-- Running a session: one `advance` call per element of the input
sequence, stopping on a fatal tick failure. -/
def run_session (s : Session) (inputs : List (List ActionState)) :
    Option Session :=
  List.foldlM advance s inputs

/-- The `PlayerState` of an entity that entered the dead state at some tick
T, observed k ticks later: the spec-modelled age maintenance applied k times
while the entity remains in the dead state. -/
def dead_state_after (k : Nat) : PlayerState :=
  (age_maintenance deadID)^[k] { current := deadID, age := 0 }

/-! ## Helper lemmas -/

lemma dead_state_after_eq (k : Nat) :
    dead_state_after k = { current := deadID, age := k } := by
  induction k with
  | zero => rfl
  | succ n ih =>
    unfold dead_state_after at ih ⊢
    rw [Function.iterate_succ_apply', ih, age_maintenance, if_pos rfl]

lemma foldl_push_event (pushed : List AudioEvent) :
    ∀ acc : List AudioEvent, List.foldl push_event acc pushed = acc ++ pushed := by
  induction pushed with
  | nil => intro acc; simp
  | cons e es ih =>
    intro acc
    simp only [List.foldl_cons, push_event, ih, List.append_assoc,
      List.singleton_append]

lemma foldlM_handler_nil (w : World) :
    List.foldlM handler_step w [] = some w := rfl

lemma foldlM_handler_cons (w : World) (e : Entity) (es : List Entity) :
    List.foldlM handler_step w (e :: es) =
      (handler_step w e).bind fun w' => List.foldlM handler_step w' es := rfl

lemma handler_step_preserves {w : World} {e : Entity} {w' : World}
    (h : handler_step w e = some w') :
    w'.entities = w.entities ∧ w'.player_states = w.player_states ∧
    w'.killed_players = w.killed_players ∧ w'.sprites = w.sprites ∧
    w'.transforms = w.transforms ∧
    ∀ x, (w'.animations x).isSome = (w.animations x).isSome := by
  unfold handler_step at h
  rcases hst : w.player_states e with _ | st <;> rw [hst] at h
  · simp only [Option.some.injEq] at h
    subst h
    exact ⟨rfl, rfl, rfl, rfl, rfl, fun _ => rfl⟩
  rcases hanim : w.animations e with _ | anim <;> rw [hanim] at h
  · simp only [Option.some.injEq] at h
    subst h
    exact ⟨rfl, rfl, rfl, rfl, rfl, fun _ => rfl⟩
  rcases hk : w.killed_players e with _ | killed <;> rw [hk] at h
  · simp only [Option.some.injEq] at h
    subst h
    exact ⟨rfl, rfl, rfl, rfl, rfl, fun _ => rfl⟩
  rcases hr : handle_player_state_entity st killed (w.sprites e) (w.transforms e) anim
      with _ | ⟨a, d⟩
  · simp [hr] at h
  · simp only [hr, Option.some.injEq] at h
    subst h
    refine ⟨rfl, rfl, rfl, rfl, rfl, fun x => ?_⟩
    show (Function.update w.animations e (some a) x).isSome = (w.animations x).isSome
    by_cases hx : x = e
    · subst hx
      rw [Function.update_same, hanim]
      rfl
    · rw [Function.update_noteq hx]

lemma foldlM_handler_preserves :
    ∀ (l : List Entity) (w w' : World),
      List.foldlM handler_step w l = some w' →
      w'.entities = w.entities ∧ w'.player_states = w.player_states ∧
      w'.killed_players = w.killed_players ∧ w'.sprites = w.sprites ∧
      w'.transforms = w.transforms ∧
      ∀ x, (w'.animations x).isSome = (w.animations x).isSome := by
  intro l
  induction l with
  | nil =>
    intro w w' h
    rw [foldlM_handler_nil] at h
    simp only [Option.some.injEq] at h
    subst h
    exact ⟨rfl, rfl, rfl, rfl, rfl, fun _ => rfl⟩
  | cons e es ih =>
    intro w w' h
    rw [foldlM_handler_cons] at h
    rcases hw1 : handler_step w e with _ | w1 <;> rw [hw1] at h
    · exact absurd h (by simp)
    · simp only [Option.some_bind] at h
      obtain ⟨h1, h2, h3, h4, h5, h6⟩ := handler_step_preserves hw1
      obtain ⟨g1, g2, g3, g4, g5, g6⟩ := ih w1 w' h
      exact ⟨g1.trans h1, g2.trans h2, g3.trans h3, g4.trans h4, g5.trans h5,
        fun x => (g6 x).trans (h6 x)⟩

lemma handle_entity_dead_eval (st : PlayerState) (killed : PlayerKilled)
    (s : AtlasSprite) (t : Transform) (anim : AnimationBankSprite)
    (hcur : st.current = deadID) :
    handle_player_state_entity st killed (some s) (some t) anim =
      some (if st.age = 0 then
              { current := choose_death_animation s.flip_x t.translation.x killed.hit_from }
            else anim,
            decide (80 ≤ st.age)) := by
  unfold handle_player_state_entity
  rw [if_neg (not_not_intro hcur)]
  by_cases hage : st.age = 0
  · simp [hage]
  · simp [hage]

/-- The precondition of claim C8 at one entity: if the entity is matched by
the dead-state handler's query (`PlayerState`, `AnimationBankSprite`,
`PlayerKilled`) with `current = deadID` and `age = 0`, then it also carries
`AtlasSprite` and `Transform`. -/
def unwrap_safe_at (w : World) (e : Entity) : Prop :=
  ∀ st anim killed, w.player_states e = some st → w.animations e = some anim →
    w.killed_players e = some killed → st.current = deadID → st.age = 0 →
    (w.sprites e).isSome = true ∧ (w.transforms e).isSome = true

lemma handle_entity_isSome (st : PlayerState) (killed : PlayerKilled)
    (sprite : Option AtlasSprite) (transform : Option Transform)
    (anim : AnimationBankSprite)
    (h : st.current = deadID → st.age = 0 →
      sprite.isSome = true ∧ transform.isSome = true) :
    (handle_player_state_entity st killed sprite transform anim).isSome = true := by
  unfold handle_player_state_entity
  by_cases hcur : st.current = deadID
  · rw [if_neg (not_not_intro hcur)]
    by_cases hage : st.age = 0
    · obtain ⟨hs, ht⟩ := h hcur hage
      obtain ⟨sp, hs'⟩ := Option.isSome_iff_exists.mp hs
      obtain ⟨tr, ht'⟩ := Option.isSome_iff_exists.mp ht
      rw [hs', ht']
      simp [hage]
    · simp [hage]
  · simp [hcur]

lemma handler_step_isSome (w : World) (e : Entity) (h : unwrap_safe_at w e) :
    (handler_step w e).isSome = true := by
  rcases hst : w.player_states e with _ | st
  · unfold handler_step
    rw [hst]
    exact rfl
  · rcases hanim : w.animations e with _ | anim
    · unfold handler_step
      rw [hst, hanim]
      exact rfl
    · rcases hk : w.killed_players e with _ | killed
      · unfold handler_step
        rw [hst, hanim, hk]
        exact rfl
      · have hr : (handle_player_state_entity st killed (w.sprites e) (w.transforms e)
            anim).isSome = true :=
          handle_entity_isSome st killed _ _ anim fun hcur hage =>
            h st anim killed hst hanim hk hcur hage
        obtain ⟨⟨a, d⟩, hr'⟩ := Option.isSome_iff_exists.mp hr
        unfold handler_step
        rw [hst, hanim, hk]
        simp [hr']

lemma unwrap_safe_preserved {w : World} {x : Entity} {w' : World} {e : Entity}
    (hp : handler_step w x = some w') (h : unwrap_safe_at w e) :
    unwrap_safe_at w' e := by
  obtain ⟨-, h2, h3, h4, h5, h6⟩ := handler_step_preserves hp
  intro st anim killed hst hanim hk hcur hage
  rw [h2] at hst
  rw [h3] at hk
  have hsome : (w.animations e).isSome = true := by
    rw [← h6, hanim]
    rfl
  obtain ⟨anim0, hanim0⟩ := Option.isSome_iff_exists.mp hsome
  rw [h4, h5]
  exact h st anim0 killed hst hanim0 hk hcur hage

lemma foldlM_handler_isSome :
    ∀ (l : List Entity) (w : World), (∀ e ∈ l, unwrap_safe_at w e) →
      (List.foldlM handler_step w l).isSome = true := by
  intro l
  induction l with
  | nil => intro w _; rfl
  | cons e es ih =>
    intro w h
    have h1 : (handler_step w e).isSome = true :=
      handler_step_isSome w e (h e (List.mem_cons_self e es))
    rcases hw1 : handler_step w e with _ | w1
    · rw [hw1] at h1
      exact absurd h1 (by simp)
    · rw [foldlM_handler_cons, hw1, Option.some_bind]
      exact ih w1 fun e' he' =>
        unwrap_safe_preserved hw1 (h e' (List.mem_cons_of_mem e he'))

lemma transition_at (w : World) (e : Entity) :
    (player_state_transition w).player_states e =
      match w.player_states e, w.killed_players e with
      | some st, some _ => some { st with current := deadID }
      | st, _ => st := rfl

/-- A one-entity example world: entity 0 is freshly killed (Killed marker
present) while still in a non-dead state with a stale age counter. -/
def killed_world : World :=
  { entities := [0]
    player_states := fun e => if e = 0 then some { current := "core::idle", age := 5 } else none
    killed_players := fun e => if e = 0 then some { hit_from := some { x := 1, y := 0 } } else none
    sprites := fun e => if e = 0 then some { flip_x := false } else none
    transforms := fun e => if e = 0 then some { translation := { x := 0, y := 0, z := 0 } } else none
    animations := fun e => if e = 0 then some { current := "idle" } else none
    despawn_queue := [] }

/-- A one-entity example world: entity 0 is on the first tick of the dead
state with every component the dead-state handler reads present. -/
def dead_world : World :=
  { entities := [0]
    player_states := fun e => if e = 0 then some { current := deadID, age := 0 } else none
    killed_players := fun e => if e = 0 then some { hit_from := some { x := 1, y := 0 } } else none
    sprites := fun e => if e = 0 then some { flip_x := false } else none
    transforms := fun e => if e = 0 then some { translation := { x := 0, y := 0, z := 0 } } else none
    animations := fun e => if e = 0 then some { current := "idle" } else none
    despawn_queue := [] }

/-! ## Claim C1 -/

/-- Claim C1, as stated, fails on the source: `player_state_transition`
(dead.rs lines 5-13) only assigns `state.current = ID` and does not reset
`age`. At a world holding one freshly killed entity whose age is 5, the
transition leaves `age = 5 ≠ 0`. -/
theorem transition_leaves_age_unreset :
    (player_state_transition killed_world).player_states 0 =
      some { current := deadID, age := 5 } ∧ (5 : Nat) ≠ 0 := by
  exact ⟨rfl, by decide⟩

/-- Claim C1 (amended): for an entity carrying a Killed marker,
`player_state_transition` sets `current = deadID` but leaves `age`
untouched; the reset to `age = 0` comes from the spec-modelled stepper age
maintenance, under which an entity whose state id changed this tick (its
prior state was not the dead state) ends the tick with `current = deadID`
and `age = 0`. -/
theorem killed_transition_dead_and_age_reset (w : World) (e : Entity)
    (st : PlayerState) (hst : w.player_states e = some st)
    (hk : (w.killed_players e).isSome = true) (hprev : st.current ≠ deadID) :
    ∃ st', (player_state_transition w).player_states e = some st' ∧
      st'.current = deadID ∧ st'.age = st.age ∧
      age_maintenance st.current st' = { current := deadID, age := 0 } := by
  obtain ⟨killed, hk'⟩ := Option.isSome_iff_exists.mp hk
  refine ⟨{ st with current := deadID }, ?_, rfl, rfl, ?_⟩
  · rw [transition_at, hst, hk']
  · unfold age_maintenance
    rw [if_neg fun h => hprev h.symm]

theorem killed_transition_dead_and_age_reset_witness :
    ∃ st', (player_state_transition killed_world).player_states 0 = some st' ∧
      st'.current = deadID ∧
      st'.age = ({ current := "core::idle", age := 5 } : PlayerState).age ∧
      age_maintenance ({ current := "core::idle", age := 5 } : PlayerState).current st' =
        { current := deadID, age := 0 } :=
  killed_transition_dead_and_age_reset killed_world 0 _ rfl rfl (by decide)

/-! ## Claim C2 -/

/-- Claim C2: on the first tick of the dead state (`current = deadID`,
`age = 0`), with `facingRight = !flip_x` and
`hitFromRight = (translation.x < hit_from.x)`, the handler picks
`death_spine` exactly when
`(facingRight && hitFromRight) || (!facingRight && !hitFromRight)` and
`death_belly` otherwise; with no recorded hit origin it picks
`death_belly`. -/
theorem dead_first_tick_animation_policy (st : PlayerState)
    (killed : PlayerKilled) (s : AtlasSprite) (t : Transform)
    (anim : AnimationBankSprite) (hcur : st.current = deadID)
    (hage : st.age = 0) :
    ∃ a d, handle_player_state_entity st killed (some s) (some t) anim = some (a, d) ∧
      (∀ hf, killed.hit_from = some hf →
        a.current =
          if ((!s.flip_x && decide (t.translation.x < hf.x)) ||
              (!(!s.flip_x) && !decide (t.translation.x < hf.x))) = true
          then deathSpineKey else deathBellyKey) ∧
      (killed.hit_from = none → a.current = deathBellyKey) := by
  refine ⟨{ current := choose_death_animation s.flip_x t.translation.x killed.hit_from },
    decide (80 ≤ st.age), ?_, ?_, ?_⟩
  · rw [handle_entity_dead_eval st killed s t anim hcur, if_pos hage]
  · intro hf hhf
    show choose_death_animation s.flip_x t.translation.x killed.hit_from = _
    rw [hhf]
    rfl
  · intro hnone
    show choose_death_animation s.flip_x t.translation.x killed.hit_from = _
    rw [hnone]
    rfl

theorem dead_first_tick_animation_policy_witness :
    ∃ a d, handle_player_state_entity { current := deadID, age := 0 }
        { hit_from := some { x := 3, y := 0 } } (some { flip_x := false })
        (some { translation := { x := 1, y := 0, z := 0 } }) { current := "idle" } =
          some (a, d) ∧
      (∀ hf, ({ hit_from := some { x := 3, y := 0 } } : PlayerKilled).hit_from = some hf →
        a.current =
          if ((!({ flip_x := false } : AtlasSprite).flip_x &&
                decide (({ translation := { x := 1, y := 0, z := 0 } } : Transform).translation.x < hf.x)) ||
              (!(!({ flip_x := false } : AtlasSprite).flip_x) &&
                !decide (({ translation := { x := 1, y := 0, z := 0 } } : Transform).translation.x < hf.x))) = true
          then deathSpineKey else deathBellyKey) ∧
      (({ hit_from := some { x := 3, y := 0 } } : PlayerKilled).hit_from = none →
        a.current = deathBellyKey) :=
  dead_first_tick_animation_policy _ _ _ _ _ rfl rfl

/-! ## Claim C3 -/

/-- Claim C3, as stated, fails on the source: with `flip_x = false` (facing
right) and the hit origin strictly to the right (`hit_from.x = 1 >
0 = translation.x`), the first-tick dead handler picks `death_spine`, not
`death_belly` as the claim requires. -/
theorem facing_right_hit_from_right_gives_spine :
    handle_player_state_entity { current := deadID, age := 0 }
        { hit_from := some { x := 1, y := 0 } } (some { flip_x := false })
        (some { translation := { x := 0, y := 0, z := 0 } }) { current := "idle" } =
      some ({ current := deathSpineKey }, false) ∧
    deathSpineKey ≠ deathBellyKey := by
  exact ⟨rfl, by decide⟩

/-- Claim C3 (amended, spine and belly exchanged to match the source): for
an entity entering the dead state with `flip_x = false` (facing right),
`hit_from.x > translation.x` (hit from the right) gives `death_spine`,
`hit_from.x < translation.x` (hit from the left) gives `death_belly`, and a
missing hit origin gives `death_belly`. -/
theorem facing_right_death_animation (st : PlayerState)
    (killed : PlayerKilled) (t : Transform) (anim : AnimationBankSprite)
    (hcur : st.current = deadID) (hage : st.age = 0) :
    ∃ a d, handle_player_state_entity st killed (some { flip_x := false }) (some t) anim =
        some (a, d) ∧
      (∀ hf, killed.hit_from = some hf → t.translation.x < hf.x →
        a.current = deathSpineKey) ∧
      (∀ hf, killed.hit_from = some hf → hf.x < t.translation.x →
        a.current = deathBellyKey) ∧
      (killed.hit_from = none → a.current = deathBellyKey) := by
  refine ⟨{ current := choose_death_animation false t.translation.x killed.hit_from },
    decide (80 ≤ st.age), ?_, ?_, ?_, ?_⟩
  · rw [handle_entity_dead_eval st killed _ t anim hcur, if_pos hage]
  · intro hf hhf hlt
    show choose_death_animation false t.translation.x killed.hit_from = _
    rw [hhf]
    unfold choose_death_animation
    simp [hlt]
  · intro hf hhf hgt
    show choose_death_animation false t.translation.x killed.hit_from = _
    rw [hhf]
    unfold choose_death_animation
    simp [not_lt_of_gt hgt]
  · intro hnone
    show choose_death_animation false t.translation.x killed.hit_from = _
    rw [hnone]
    rfl

theorem facing_right_death_animation_witness :
    (∃ a d, handle_player_state_entity { current := deadID, age := 0 }
        { hit_from := some { x := 2, y := 0 } } (some { flip_x := false })
        (some { translation := { x := 5, y := 0, z := 0 } }) { current := "idle" } =
          some (a, d) ∧
      (∀ hf, ({ hit_from := some { x := 2, y := 0 } } : PlayerKilled).hit_from = some hf →
        ({ translation := { x := 5, y := 0, z := 0 } } : Transform).translation.x < hf.x →
        a.current = deathSpineKey) ∧
      (∀ hf, ({ hit_from := some { x := 2, y := 0 } } : PlayerKilled).hit_from = some hf →
        hf.x < ({ translation := { x := 5, y := 0, z := 0 } } : Transform).translation.x →
        a.current = deathBellyKey) ∧
      (({ hit_from := some { x := 2, y := 0 } } : PlayerKilled).hit_from = none →
        a.current = deathBellyKey)) :=
  facing_right_death_animation _ _ _ _ rfl rfl

/-! ## Claim C4 -/

/-- Claim C4: an entity that entered the dead state at tick T has, k ticks
later, the state `dead_state_after k` (age counts up from 0); the handler
requests a despawn there exactly when `k ≥ 80` — so none at T+79 and one at
T+80. -/
theorem dead_despawn_exactly_at_tick_80 (k : Nat) (killed : PlayerKilled)
    (s : AtlasSprite) (t : Transform) (anim : AnimationBankSprite) :
    ∃ a d, handle_player_state_entity (dead_state_after k) killed (some s) (some t) anim =
        some (a, d) ∧ (d = true ↔ 80 ≤ k) := by
  rw [dead_state_after_eq]
  exact ⟨_, decide (80 ≤ k), handle_entity_dead_eval _ killed s t anim rfl, by simp⟩

/-! ## Claim C5 -/

/-- Claim C5: the dead state is terminal. The transition system either
leaves an entity's `PlayerState` untouched or writes `current = deadID`
(so a dead entity can never leave the dead state through it), and the
handler system never writes `PlayerState` at all — its only exit is the
despawn request. -/
theorem dead_state_terminal :
    (∀ (w : World) (e : Entity) (st st' : PlayerState),
      w.player_states e = some st →
      (player_state_transition w).player_states e = some st' →
      st'.current = deadID ∨ st' = st) ∧
    (∀ w w' : World, handle_player_state w = some w' →
      w'.player_states = w.player_states) := by
  constructor
  · intro w e st st' hst h
    rw [transition_at, hst] at h
    rcases hk : w.killed_players e with _ | killed <;> rw [hk] at h
    · exact Or.inr (Option.some.inj h).symm
    · refine Or.inl ?_
      rw [← Option.some.inj h]
  · intro w w' h
    exact (foldlM_handler_preserves w.entities w w' h).2.1

theorem dead_state_terminal_witness :
    ({ current := deadID, age := 0 } : PlayerState).current = deadID ∨
      ({ current := deadID, age := 0 } : PlayerState) = { current := deadID, age := 0 } :=
  dead_state_terminal.1 dead_world 0 { current := deadID, age := 0 }
    { current := deadID, age := 0 } rfl rfl

/-! ## Claim C6 -/

/-- Claim C6: events pushed during a tick come out of `drain` exactly once,
in FIFO push order: the first drain yields the whole queue (non-empty when
at least one event was pushed), leaves the queue empty, and a second drain
with no intervening pushes yields nothing. -/
theorem drain_yields_fifo_then_empty (pushed : List AudioEvent) :
    (drain (List.foldl push_event [] pushed)).1 = pushed ∧
    (drain (List.foldl push_event [] pushed)).2 = [] ∧
    drain (drain (List.foldl push_event [] pushed)).2 = ([], []) ∧
    (pushed ≠ [] → (drain (List.foldl push_event [] pushed)).1 ≠ []) := by
  have h := foldl_push_event pushed []
  rw [List.nil_append] at h
  exact ⟨by rw [drain, h], rfl, rfl, fun hne => by rw [drain, h]; exact hne⟩

theorem drain_yields_fifo_then_empty_witness :
    (drain (List.foldl push_event [] [{ sound_source := 0, volume := 1 }])).1 =
      [{ sound_source := 0, volume := 1 }] ∧
    (drain (List.foldl push_event [] [{ sound_source := 0, volume := 1 }])).1 ≠ [] :=
  ⟨(drain_yields_fifo_then_empty [{ sound_source := 0, volume := 1 }]).1,
   (drain_yields_fifo_then_empty [{ sound_source := 0, volume := 1 }]).2.2.2 (by decide)⟩

/-! ## Claim C7 -/

/-- Claim C7: `advance` is deterministic: two runs of the session fed the
same initial session state and the identical input sequence produce
identical final states. The tick pipeline is a pure function of the initial
state and the inputs — it reads no clock, no randomness and no other
ambient state. -/
theorem advance_deterministic (s s' : Session)
    (ins ins' : List (List ActionState)) (hs : s = s') (hi : ins = ins') :
    run_session s ins = run_session s' ins' := by
  subst hs
  subst hi
  rfl

theorem advance_deterministic_witness :
    run_session { world := dead_world, controls := [] } [[]] =
      run_session { world := dead_world, controls := [] } [[]] :=
  advance_deterministic _ _ _ _ rfl rfl

/-! ## Claim C8 -/

/-- Claim C8: on worlds where every entity matched by the dead-state
handler's query (`PlayerState` + `AnimationBankSprite` + `PlayerKilled`)
with `current = deadID` and `age = 0` also carries `AtlasSprite` and
`Transform`, the handler's two `unwrap` lookups never panic: the whole
`handle_player_state` pass is total. -/
theorem handler_total_on_safe_worlds (w : World)
    (h : ∀ e ∈ w.entities, unwrap_safe_at w e) :
    (handle_player_state w).isSome = true :=
  foldlM_handler_isSome w.entities w h

theorem handler_total_on_safe_worlds_witness :
    (handle_player_state dead_world).isSome = true :=
  handler_total_on_safe_worlds dead_world (by
    intro e he st anim killed hst hanim hk hcur hage
    have he0 : e = 0 := by simpa [dead_world] using he
    subst he0
    exact ⟨rfl, rfl⟩)

/-! ## Claim C9 -/

/-- Claim C9: the frame condition of `player_state_transition`: a matched
entity (both `PlayerState` and `PlayerKilled` present) gets exactly
`current := deadID` with `age` kept; an entity missing either component
keeps its `PlayerState`; and every other component table, the entity list
and the despawn queue are untouched for all entities. -/
theorem transition_frame_condition (w : World) (e : Entity) :
    (∀ st killed, w.player_states e = some st → w.killed_players e = some killed →
      (player_state_transition w).player_states e =
        some { current := deadID, age := st.age }) ∧
    (w.player_states e = none → (player_state_transition w).player_states e = none) ∧
    (w.killed_players e = none →
      (player_state_transition w).player_states e = w.player_states e) ∧
    (player_state_transition w).killed_players = w.killed_players ∧
    (player_state_transition w).sprites = w.sprites ∧
    (player_state_transition w).transforms = w.transforms ∧
    (player_state_transition w).animations = w.animations ∧
    (player_state_transition w).entities = w.entities ∧
    (player_state_transition w).despawn_queue = w.despawn_queue := by
  refine ⟨?_, ?_, ?_, rfl, rfl, rfl, rfl, rfl, rfl⟩
  · intro st killed hst hk
    rw [transition_at, hst, hk]
  · intro h
    rw [transition_at, h]
  · intro h
    rw [transition_at, h]
    cases w.player_states e <;> exact rfl

theorem transition_frame_condition_witness :
    (player_state_transition killed_world).player_states 0 =
      some { current := deadID,
             age := ({ current := "core::idle", age := 5 } : PlayerState).age } ∧
    (player_state_transition killed_world).animations = killed_world.animations :=
  ⟨(transition_frame_condition killed_world 0).1 _ _ rfl rfl,
   (transition_frame_condition killed_world 0).2.2.2.2.2.2.1⟩

/-! ## Claim C10 -/

/-- Claim C10, as stated, fails on the source: `update_input` treats a move
direction as movement only when its squared length exceeds
`f32::MIN_POSITIVE` (session.rs lines 131-133), not when it is non-zero.
With the direction going from zero to `(2^-70, 0)` — non-zero, but with
squared length `2^-140 < 2^-126`, computed exactly in `f32` — `just_moved`
stays false although the direction became non-zero from zero. -/
theorem just_moved_misses_tiny_direction :
    (update_control
        { jump_pressed := false, jump_just_pressed := false, grab_pressed := false,
          grab_just_pressed := false, shoot_pressed := false, shoot_just_pressed := false,
          move_direction := (0, 0), just_moved := false }
        { jump := false, grab := false, shoot := false,
          move_axis := (1 / 2 ^ 70, 0) }).just_moved = false ∧
    ((1 : ℚ) / 2 ^ 70, (0 : ℚ)) ≠ ((0 : ℚ), (0 : ℚ)) := by
  constructor
  · have h1 : ¬ (length_squared ((1 : ℚ) / 2 ^ 70, 0) > f32_min_positive) := by
      unfold length_squared f32_min_positive
      norm_num
    show (!decide (length_squared ((0 : ℚ), (0 : ℚ)) > f32_min_positive) &&
          decide (length_squared ((1 : ℚ) / 2 ^ 70, 0) > f32_min_positive)) = false
    rw [decide_eq_false h1, Bool.and_false]
  · intro h
    have := congrArg Prod.fst h
    norm_num at this

/-- Claim C10 (amended): after `update_control`, each of the jump, grab and
shoot `just_pressed` flags is the rising edge (pressed this tick and stored
pressed flag previously false), the stored pressed flag equals the current
pressed state, the stored move direction is this tick's axis pair — and
`just_moved` holds iff the squared length of the move direction exceeds
`f32::MIN_POSITIVE` this tick and did not exceed it before (the source's
movement threshold, rather than exact non-zero vs zero). -/
theorem update_input_edge_detection (control : PlayerControl) (a : ActionState) :
    (update_control control a).jump_just_pressed = (a.jump && !control.jump_pressed) ∧
    (update_control control a).jump_pressed = a.jump ∧
    (update_control control a).grab_just_pressed = (a.grab && !control.grab_pressed) ∧
    (update_control control a).grab_pressed = a.grab ∧
    (update_control control a).shoot_just_pressed = (a.shoot && !control.shoot_pressed) ∧
    (update_control control a).shoot_pressed = a.shoot ∧
    (update_control control a).move_direction = a.move_axis ∧
    ((update_control control a).just_moved = true ↔
      (length_squared a.move_axis > f32_min_positive ∧
       ¬ length_squared control.move_direction > f32_min_positive)) := by
  refine ⟨rfl, rfl, rfl, rfl, rfl, rfl, rfl, ?_⟩
  show (!decide (length_squared control.move_direction > f32_min_positive) &&
        decide (length_squared a.move_axis > f32_min_positive)) = true ↔ _
  rw [Bool.and_eq_true, Bool.not_eq_true', decide_eq_false_iff_not, decide_eq_true_eq]
  exact and_comm

end Jumpy
